import Mathlib

/-!
Verification of the Stratum v2 Template Provider against its specification.

The development shallowly embeds the code of `src/node/sv2_template_provider.cpp`
and `src/common/sv2_noise.h`: machine integers are modelled as `Nat`/`Int` with
explicit reduction modulo `2^32` where overflow matters, byte buffers as
`List Nat` (each entry a byte value), fallible operations (out-of-bounds
pointer/vector accesses, deserialization exceptions) as `Option`.
-/

namespace Sv2

/-! ## SHA-256 (FIPS 180-4), executable over `Nat`

The cryptographic primitive used by the Noise protocol name constants in
`src/common/sv2_noise.h`. Words are `Nat` reduced modulo `2^32`.
-/

def M32 : Nat := 4294967296

def add32 (a b : Nat) : Nat := (a + b) % M32

def rotr32 (n x : Nat) : Nat := ((x >>> n) ||| (x <<< (32 - n))) % M32

def sha_ch (x y z : Nat) : Nat := (x &&& y) ^^^ ((x ^^^ 4294967295) &&& z)

def sha_maj (x y z : Nat) : Nat := ((x &&& y) ^^^ (x &&& z)) ^^^ (y &&& z)

def bsig0 (x : Nat) : Nat := (rotr32 2 x ^^^ rotr32 13 x) ^^^ rotr32 22 x

def bsig1 (x : Nat) : Nat := (rotr32 6 x ^^^ rotr32 11 x) ^^^ rotr32 25 x

def ssig0 (x : Nat) : Nat := (rotr32 7 x ^^^ rotr32 18 x) ^^^ (x >>> 3)

def ssig1 (x : Nat) : Nat := (rotr32 17 x ^^^ rotr32 19 x) ^^^ (x >>> 10)

/-- The 64 SHA-256 round constants, written in decimal. -/
def sha_k : List Nat :=
  [1116352408, 1899447441, 3049323471, 3921009573, 961987163, 1508970993,
   2453635748, 2870763221, 3624381080, 310598401, 607225278, 1426881987,
   1925078388, 2162078206, 2614888103, 3248222580, 3835390401, 4022224774,
   264347078, 604807628, 770255983, 1249150122, 1555081692, 1996064986,
   2554220882, 2821834349, 2952996808, 3210313671, 3336571891, 3584528711,
   113926993, 338241895, 666307205, 773529912, 1294757372, 1396182291,
   1695183700, 1986661051, 2177026350, 2456956037, 2730485921, 2820302411,
   3259730800, 3345764771, 3516065817, 3600352804, 4094571909, 275423344,
   430227734, 506948616, 659060556, 883997877, 958139571, 1322822218,
   1537002063, 1747873779, 1955562222, 2024104815, 2227730452, 2361852424,
   2428436474, 2756734187, 3204031479, 3329325298]

/-- The eight SHA-256 initial hash values, written in decimal. -/
def sha_h0 : List Nat :=
  [1779033703, 3144134277, 1013904242, 2773480762,
   1359893119, 2600822924, 528734635, 1541459225]

/-- Big-endian 8-byte encoding of a (< 2^64) natural number. -/
def be64 (n : Nat) : List Nat :=
  [(n >>> 56) &&& 255, (n >>> 48) &&& 255, (n >>> 40) &&& 255, (n >>> 32) &&& 255,
   (n >>> 24) &&& 255, (n >>> 16) &&& 255, (n >>> 8) &&& 255, n &&& 255]

/-- SHA-256 padding: append `0x80`, zero bytes, and the 64-bit big-endian bit length. -/
def padMessage (msg : List Nat) : List Nat :=
  let L := msg.length
  let k := (56 + 64 - ((L + 1) % 64)) % 64
  msg ++ [0x80] ++ List.replicate k 0 ++ be64 (8 * L)

/-- Bytes to big-endian 32-bit words, four bytes per word. -/
def toWords : List Nat → List Nat
  | b0 :: b1 :: b2 :: b3 :: rest => (((b0 * 256 + b1) * 256 + b2) * 256 + b3) :: toWords rest
  | _ => []

/-- One step of the message-schedule extension; `acc` holds the words produced
so far, most recent first. -/
def schedStep (acc : List Nat) : Nat :=
  add32 (add32 (ssig1 (acc.getD 1 0)) (acc.getD 6 0)) (add32 (ssig0 (acc.getD 14 0)) (acc.getD 15 0))

def buildSched : Nat → List Nat → List Nat
  | 0, acc => acc.reverse
  | n + 1, acc => buildSched n (schedStep acc :: acc)

/-- The 64-word message schedule of one 16-word block. -/
def schedule (block : List Nat) : List Nat := buildSched 48 block.reverse

/-- One round of the SHA-256 compression function on state `[a,b,c,d,e,f,g,h]`. -/
def compressStep (k w : Nat) (s : List Nat) : List Nat :=
  match s with
  | [a, b, c, d, e, f, g, h] =>
    let t1 := add32 h (add32 (bsig1 e) (add32 (sha_ch e f g) (add32 k w)))
    let t2 := add32 (bsig0 a) (sha_maj a b c)
    [add32 t1 t2, a, b, c, add32 d t1, e, f, g]
  | _ => s

def compressBlock (h : List Nat) (block : List Nat) : List Nat :=
  let w := schedule block
  let s := (List.zip sha_k w).foldl (fun s kw => compressStep kw.1 kw.2 s) h
  List.zipWith add32 h s

/-- Fold the compression function over the 16-word blocks of `ws`; `fuel`
bounds the number of blocks (structural recursion so the kernel can evaluate). -/
def compressAll (fuel : Nat) (h ws : List Nat) : List Nat :=
  match fuel with
  | 0 => h
  | fuel + 1 => if ws = [] then h else compressAll fuel (compressBlock h (ws.take 16)) (ws.drop 16)

def wordBE (w : Nat) : List Nat :=
  [(w >>> 24) &&& 255, (w >>> 16) &&& 255, (w >>> 8) &&& 255, w &&& 255]

/-- SHA-256 of a byte sequence, as 32 bytes. -/
def sha256 (msg : List Nat) : List Nat :=
  let ws := toWords (padMessage msg)
  ((compressAll ws.length sha_h0 ws).map wordBE).flatten

/-! ## Noise protocol name constants (`src/common/sv2_noise.h`) -/

/-- The ASCII bytes of the Noise protocol name used by the sv2 handshake. -/
def protocolNameBytes : List Nat :=
  "Noise_NX_EllSwiftXonly_ChaChaPoly_SHA256".data.map (fun c => c.toNat)

/-- Hard-coded constant from `src/common/sv2_noise.h` (`PROTOCOL_NAME_HASH`):
the claimed sha256 hash of the protocol name. -/
def PROTOCOL_NAME_HASH : List Nat :=
  [27, 97, 156, 90, 248, 120, 254, 68, 34, 119, 45, 129, 209, 41, 152, 82,
   26, 137, 97, 115, 62, 44, 177, 60, 145, 24, 250, 214, 68, 188, 1, 128]

/-- Hard-coded constant from `src/common/sv2_noise.h` (`PROTOCOL_NAME_DOUBLE_HASH`):
the claimed sha256 hash of `PROTOCOL_NAME_HASH`. -/
def PROTOCOL_NAME_DOUBLE_HASH : List Nat :=
  [60, 102, 112, 143, 69, 248, 185, 34, 53, 193, 3, 46, 250, 104, 70, 171,
   139, 103, 55, 191, 199, 9, 77, 179, 99, 170, 7, 240, 219, 36, 226, 71]

/-- Cipher state `{k, n}` of `Sv2CipherState` in `src/common/sv2_noise.h`.
The key is a 32-byte array, the nonce a `u64` counter. A default-constructed
`Sv2CipherState` leaves `m_key` uninitialized (modelled as all zeroes; no claim
depends on it) and sets `m_nonce = 0`. -/
structure Sv2CipherState where
  m_key : List Nat
  m_nonce : Nat
deriving DecidableEq

def Sv2CipherState.default : Sv2CipherState :=
  { m_key := List.replicate 32 0, m_nonce := 0 }

/-- Symmetric state of `Sv2SymmetricState` in `src/common/sv2_noise.h`:
chaining key `m_chaining_key`, running hash `m_hash_output`, inner cipher state. -/
structure Sv2SymmetricState where
  m_chaining_key : List Nat
  m_hash_output : List Nat
  m_cipher_state : Sv2CipherState
deriving DecidableEq

/-- The `Sv2SymmetricState` constructor: `memcpy`s `PROTOCOL_NAME_HASH` into the
chaining key; the member initializer sets `m_hash_output = uint256(PROTOCOL_NAME_DOUBLE_HASH)`. -/
def Sv2SymmetricState.init : Sv2SymmetricState :=
  { m_chaining_key := PROTOCOL_NAME_HASH,
    m_hash_output := PROTOCOL_NAME_DOUBLE_HASH,
    m_cipher_state := Sv2CipherState.default }

/-! ## sv2 frame codec

Sizes from `src/common/sv2_noise.h` (`POLY1305_TAGLEN`, `NOISE_MAX_CHUNK_SIZE`)
and from the spec (the 6-byte `Sv2NetHeader` layout and the 22-byte encrypted
header size; their declarations live in headers not present in the source tree).
-/

def POLY1305_TAGLEN : Nat := 16

def NOISE_MAX_CHUNK_SIZE : Nat := 65535

def SV2_HEADER_PLAIN_SIZE : Nat := 6

def SV2_HEADER_ENCRYPTED_SIZE : Nat := SV2_HEADER_PLAIN_SIZE + POLY1305_TAGLEN

/-- Modelled from the spec: `Sv2Cipher::EncryptedMessageSize` (implemented in
`sv2_noise.cpp`, which is not part of the source tree): a plaintext of `n` bytes
is chunked into `NOISE_MAX_CHUNK_SIZE`-byte parts, each expanded by a 16-byte MAC:
`encrypted_message_size(n) = n + 16 * ceil(n / 65535)`. -/
def EncryptedMessageSize (msg_len : Nat) : Nat :=
  msg_len + POLY1305_TAGLEN * ((msg_len + (NOISE_MAX_CHUNK_SIZE - 1)) / NOISE_MAX_CHUNK_SIZE)

/-- The 6-byte sv2 message header (`Sv2NetHeader`). -/
structure Sv2NetHeader where
  m_ext_type : Nat
  m_msg_type : Nat
  m_msg_len : Nat
deriving DecidableEq

/-- Modelled from the spec: `Sv2NetHeader` wire layout (`sv2_messages.h` is not
part of the source tree): `u16 LE extension_type`, `u8 msg_type`, `u24 LE msg_length`. -/
def parseSv2NetHeader (bytes : List Nat) : Sv2NetHeader :=
  { m_ext_type := bytes.getD 0 0 + 256 * bytes.getD 1 0,
    m_msg_type := bytes.getD 2 0,
    m_msg_len := bytes.getD 3 0 + 256 * bytes.getD 4 0 + 65536 * bytes.getD 5 0 }

/-- An sv2 message: header plus decrypted payload (`node::Sv2NetMsg`). -/
structure Sv2NetMsg where
  m_sv2_header : Sv2NetHeader
  m_msg : List Nat
deriving DecidableEq

/-- A C++ `Span(&buffer[start], len)` over a byte buffer. The source constructs
such spans without a bounds check; a span that extends past the end of the
buffer is an out-of-bounds access, modelled as `none`. -/
def spanAt (buffer : List Nat) (start len : Nat) : Option (List Nat) :=
  if start + len ≤ buffer.length then some ((buffer.drop start).take len) else none

/-- Outcome of decoding one received byte buffer:
either a list of decoded messages plus the disconnect flag raised by a failed
decryption, or an out-of-bounds buffer access. -/
inductive ReadResult where
  | ok (msgs : List Sv2NetMsg) (disconnect : Bool)
  | oob
deriving DecidableEq

/-- Shallow embedding of `Sv2TemplateProvider::ReadAndDecryptSv2NetMsgs`
(src/node/sv2_template_provider.cpp:614). `decrypt` abstracts the stateful
`Sv2NoiseSession::DecryptMessage` AEAD oracle over cipher states `D`: it is
given the bytes of the span and returns the decrypted span contents (the
plaintext occupies the leading bytes, as with the in-place C++ call) plus the
advanced cipher state, or `none` on MAC failure. `fuel` is an upper bound on
the number of loop iterations (each iteration consumes at least 22 bytes, so
`buffer.length` suffices); it exists only to make the recursion structural. -/
def readAndDecryptSv2NetMsgs {D : Type} (decrypt : D → List Nat → Option (List Nat × D))
    (fuel : Nat) (d : D) (buffer : List Nat) (bytes_read : Nat) (acc : List Sv2NetMsg) :
    ReadResult :=
  match fuel with
  | 0 => ReadResult.ok acc.reverse false
  | fuel + 1 =>
    if bytes_read < buffer.length then
      match spanAt buffer bytes_read SV2_HEADER_ENCRYPTED_SIZE with
      | none => ReadResult.oob
      | some encrypted_header =>
        match decrypt d encrypted_header with
        | none => ReadResult.ok acc.reverse true
        | some (decrypted_header_full, d) =>
          let decrypted_header := decrypted_header_full.take SV2_HEADER_PLAIN_SIZE
          let header := parseSv2NetHeader decrypted_header
          let bytes_read := bytes_read + SV2_HEADER_ENCRYPTED_SIZE
          let expanded_size := EncryptedMessageSize header.m_msg_len
          match spanAt buffer bytes_read expanded_size with
          | none => ReadResult.oob
          | some encrypted_payload =>
            match decrypt d encrypted_payload with
            | none => ReadResult.ok acc.reverse true
            | some (payload_full, d) =>
              let payload := payload_full.take header.m_msg_len
              readAndDecryptSv2NetMsgs decrypt fuel d buffer (bytes_read + expanded_size)
                ({ m_sv2_header := header, m_msg := payload } :: acc)
    else ReadResult.ok acc.reverse false

/-- Entry point matching the call in `ThreadSv2Handler`: decode a full received
buffer starting at offset 0. -/
def readBuffer {D : Type} (decrypt : D → List Nat → Option (List Nat × D)) (d : D)
    (buffer : List Nat) : ReadResult :=
  readAndDecryptSv2NetMsgs decrypt buffer.length d buffer 0 []

/-! ## Block data model

`CTransaction`, `CBlock` and `CBlockTemplate` are declared in `primitives/`
and `node/miner.h`, which are outside the source tree; only the fields the
Template Provider touches are modelled (spec §3 and the accesses in
`sv2_template_provider.cpp`). `payload` stands for all transaction data the
provider never inspects, so that distinct transactions stay distinct.
-/

/-- Witness stack of a transaction input (`CScriptWitness`): a stack of byte vectors. -/
structure CScriptWitness where
  stack : List (List Nat)
deriving DecidableEq

/-- Embeds `CScriptWitness::IsNull`: the witness is null iff the stack is empty. -/
def CScriptWitness.IsNull (w : CScriptWitness) : Bool := w.stack.isEmpty

structure CTxIn where
  scriptWitness : CScriptWitness
deriving DecidableEq

structure CTransaction where
  vin : List CTxIn
  payload : Nat
deriving DecidableEq

structure CBlock where
  nVersion : Nat
  nTime : Nat
  nNonce : Nat
  nBits : Nat
  hashPrevBlock : Nat
  hashMerkleRoot : Nat
  vtx : List CTransaction
deriving DecidableEq

/-- Embeds `CBlockHeader::IsNull`: a block (header) is null iff `nBits == 0`. -/
def CBlock.IsNull (b : CBlock) : Bool := b.nBits == 0

/-- Embeds `node::CBlockTemplate`: the assembled block and the per-transaction fees
(`vTxFees`, whose coinbase entry is `-1`). -/
structure CBlockTemplate where
  block : CBlock
  vTxFees : List Int
deriving DecidableEq

/-- The block cache `m_block_cache : std::map<uint64_t, std::unique_ptr<CBlockTemplate>>`,
as an association list with unique keys. -/
abbrev BlockCache := List (Nat × CBlockTemplate)

/-- Embeds `std::map::insert`: inserts only when the key is not already present. -/
def insertCache (cache : BlockCache) (id : Nat) (t : CBlockTemplate) : BlockCache :=
  if (List.lookup id cache).isSome then cache else (id, t) :: cache

/-- In-place mutation of the cache entry at `id` (through the
`cached_block->second` pointer in the source). -/
def updateCache (cache : BlockCache) (id : Nat) (t : CBlockTemplate) : BlockCache :=
  cache.map (fun kv => if kv.1 = id then (kv.1, t) else kv)

/-! ## Template Provider state and messages -/

/-- Constant `MAX_BLOCK_WEIGHT` (consensus; value given by the spec). -/
def MAX_BLOCK_WEIGHT : Nat := 4000000

/-- Constant `TP_SUBPROTOCOL` (0x02), the template-distribution subprotocol tag. -/
def TP_SUBPROTOCOL : Nat := 2

/-- Configuration fields of `Sv2TemplateProvider` relevant to message handling
(set in `Sv2TemplateProvider::Init`). -/
structure TPConfig where
  m_protocol_version : Nat
  m_optional_features : Nat
  m_minimum_fee_delta : Int
deriving DecidableEq

/-- Per-client record (`Sv2Client`). Its definition lives in
`sv2_template_provider.h`, which is not part of the source tree; fields and
their initial values are modelled from the spec (§3, "Client record") and from
every access in `sv2_template_provider.cpp`. -/
structure Sv2Client where
  m_setup_connection_confirmed : Bool
  m_coinbase_output_data_size_recv : Bool
  m_coinbase_tx_outputs_size : Nat
  m_latest_submitted_template_fees : Int
  m_disconnect_flag : Bool
deriving DecidableEq

/-- Modelled from the spec: the initial state of a freshly accepted `Sv2Client`
(flags unset, `coinbase_max_additional_size` 0 meaning "not yet set",
`latest_template_fees` 0). -/
def Sv2Client.init : Sv2Client :=
  { m_setup_connection_confirmed := false,
    m_coinbase_output_data_size_recv := false,
    m_coinbase_tx_outputs_size := 0,
    m_latest_submitted_template_fees := 0,
    m_disconnect_flag := false }

/-- Modelled from the spec: the typed sv2 messages of `sv2_messages.h` (not part
of the source tree), restricted to the fields `ProcessSv2Message` reads. -/
structure Sv2SetupConnectionMsg where
  m_protocol : Nat
  m_min_version : Nat
  m_max_version : Nat
  m_flags : Nat
deriving DecidableEq

structure Sv2CoinbaseOutputDataSizeMsg where
  m_coinbase_output_max_additional_size : Nat
deriving DecidableEq

structure Sv2SubmitSolutionMsg where
  m_template_id : Nat
  m_version : Nat
  m_header_timestamp : Nat
  m_header_nonce : Nat
  m_coinbase_tx : CTransaction
deriving DecidableEq

structure Sv2RequestTransactionDataMsg where
  m_template_id : Nat
deriving DecidableEq

/-- Embeds `node::Sv2NewTemplateMsg`, built from the assembled block, the template id
and the `future_template` flag; only the fields the claims mention are kept. -/
structure Sv2NewTemplateMsg where
  template_id : Nat
  future_template : Bool
deriving DecidableEq

/-- Embeds `node::Sv2SetNewPrevHashMsg`, built from the assembled block and template id. -/
structure Sv2SetNewPrevHashMsg where
  template_id : Nat
  prev_hash : Nat
deriving DecidableEq

/-- A message sent to a client (the argument of `EncryptAndSendMessage`). -/
inductive OutMsg where
  | newTemplate (m : Sv2NewTemplateMsg)
  | setNewPrevHash (m : Sv2SetNewPrevHashMsg)
  | setupConnectionSuccess (used_version : Nat) (optional_features : Nat)
  | setupConnectionError (flags : Nat) (error_code : String)
  | requestTransactionDataSuccess (template_id : Nat) (witness_reserve_value : List Nat)
      (txs : List CTransaction)
  | requestTransactionDataError (template_id : Nat) (error_code : String)
deriving DecidableEq

/-- An incoming sv2 message after header dispatch and payload deserialization;
`none` in a constructor stands for a deserialization exception (`ss >> msg` threw). -/
inductive InMsg where
  | setupConnection (parsed : Option Sv2SetupConnectionMsg)
  | coinbaseOutputDataSize (parsed : Option Sv2CoinbaseOutputDataSizeMsg)
  | submitSolution (parsed : Option Sv2SubmitSolutionMsg)
  | requestTransactionData (parsed : Option Sv2RequestTransactionDataMsg)
  | unknown (msg_type : Nat)
deriving DecidableEq

/-- External inputs consumed while handling one message: the block template
returned by `BlockAssembler::CreateNewBlock` (the chain/mempool collaborator)
and the outcomes of the at most two `EncryptAndSendMessage`/socket sends. -/
structure MsgEnv where
  blocktemplate : CBlockTemplate
  ok1 : Bool
  ok2 : Bool
deriving DecidableEq

/-- The provider state mutated by `ProcessSv2Message` and `SendWork`, plus the
observable effects: messages successfully sent to the client and blocks
submitted to the chain via `ProcessNewBlock`. -/
structure ProcState where
  client : Sv2Client
  block_cache : BlockCache
  m_template_id : Nat
  sent : List OutMsg
  submitted : List CBlock
deriving DecidableEq

/-! ## SendWork (src/node/sv2_template_provider.cpp:320) -/

/-- The fee accumulation loop in `SendWork`: sum `vTxFees`, skipping negative
entries (the coinbase's `-1`). -/
def sumFees (vTxFees : List Int) : Int :=
  vTxFees.foldl (fun fees fee => if fee < 0 then fees else fees + fee) 0

/-- The fee total as the spec words it: `Σ max(0, vTxFees[i])`. Stated from the
spec, to be compared with `sumFees` (the definition from the source). -/
def specFees (vTxFees : List Int) : Int :=
  (vTxFees.map (fun fee => max 0 fee)).sum

/-- Embeds `Sv2TemplateProvider::NewWorkSet`. -/
structure NewWorkSet where
  new_template : Sv2NewTemplateMsg
  block_template : CBlockTemplate
  prev_hash : Sv2SetNewPrevHashMsg
deriving DecidableEq

/-- Embeds `Sv2TemplateProvider::BuildNewWorkSet` (src/node/sv2_template_provider.cpp:300):
builds the template via `BlockAssembler` (abstracted as the `blocktemplate`
input) and derives the `NewTemplate` and `SetNewPrevHash` messages from it and
the current `m_template_id`. -/
def BuildNewWorkSet (future_template : Bool) (blocktemplate : CBlockTemplate)
    (template_id : Nat) : NewWorkSet :=
  { new_template := { template_id := template_id, future_template := future_template },
    block_template := blocktemplate,
    prev_hash := { template_id := template_id, prev_hash := blocktemplate.block.hashPrevBlock } }

/-- Result of `Sv2TemplateProvider::SendWork`: the returned `bool`, the updated
client, block cache and `m_template_id`, and the messages that reached the wire. -/
structure SendWorkResult where
  success : Bool
  client : Sv2Client
  block_cache : BlockCache
  m_template_id : Nat
  sent : List OutMsg
deriving DecidableEq

/-- Embeds `Sv2TemplateProvider::SendWork` (src/node/sv2_template_provider.cpp:320).
`env.ok1`/`env.ok2` are the outcomes of the two `EncryptAndSendMessage` calls
(`NewTemplate`, then `SetNewPrevHash`); a failed send delivers nothing. -/
def SendWork (cfg : TPConfig) (template_id : Nat) (cache : BlockCache) (client : Sv2Client)
    (send_new_prevhash : Bool) (env : MsgEnv) : SendWorkResult :=
  let template_id := template_id + 1
  let new_work_set := BuildNewWorkSet send_new_prevhash env.blocktemplate template_id
  let fees := sumFees new_work_set.block_template.vTxFees
  if send_new_prevhash = false ∧
      client.m_latest_submitted_template_fees + cfg.m_minimum_fee_delta > fees then
    { success := true, client := client, block_cache := cache,
      m_template_id := template_id, sent := [] }
  else
    let cache := insertCache cache template_id new_work_set.block_template
    if env.ok1 = false then
      { success := false, client := client, block_cache := cache,
        m_template_id := template_id, sent := [] }
    else
      let sent := [OutMsg.newTemplate new_work_set.new_template]
      if send_new_prevhash then
        if env.ok2 = false then
          { success := false, client := client, block_cache := cache,
            m_template_id := template_id, sent := sent }
        else
          { success := true,
            client := { client with m_latest_submitted_template_fees := fees },
            block_cache := cache, m_template_id := template_id,
            sent := sent ++ [OutMsg.setNewPrevHash new_work_set.prev_hash] }
      else
        { success := true,
          client := { client with m_latest_submitted_template_fees := fees },
          block_cache := cache, m_template_id := template_id, sent := sent }

/-! ## ProcessSv2Message (src/node/sv2_template_provider.cpp:380) -/

/-- Raise the client's disconnect flag. -/
def ProcState.disconnect (ps : ProcState) : ProcState :=
  { ps with client := { ps.client with m_disconnect_flag := true } }

/-- The `SETUP_CONNECTION` branch (src/node/sv2_template_provider.cpp:386).
`ok` is the outcome of the single `EncryptAndSendMessage` call; a failed send
delivers nothing (the code only logs, except in the success branch where it
also disconnects). -/
def handleSetupConnection (cfg : TPConfig) (ok : Bool)
    (parsed : Option Sv2SetupConnectionMsg) (ps : ProcState) : ProcState :=
  if ps.client.m_setup_connection_confirmed then ps
  else
    match parsed with
    | none => ps.disconnect
    | some setup_conn =>
      if setup_conn.m_protocol ≠ TP_SUBPROTOCOL then
        let sent := if ok then [OutMsg.setupConnectionError setup_conn.m_flags
          "unsupported-protocol"] else []
        { (ps.disconnect) with sent := ps.sent ++ sent }
      else if cfg.m_protocol_version < setup_conn.m_min_version ∨
          cfg.m_protocol_version > setup_conn.m_max_version then
        let sent := if ok then [OutMsg.setupConnectionError setup_conn.m_flags
          "protocol-version-mismatch"] else []
        { (ps.disconnect) with sent := ps.sent ++ sent }
      else
        if ok then
          { ps with
            client := { ps.client with m_setup_connection_confirmed := true },
            sent := ps.sent ++ [OutMsg.setupConnectionSuccess cfg.m_protocol_version
              cfg.m_optional_features] }
        else ps.disconnect

/-- The `COINBASE_OUTPUT_DATA_SIZE` branch (src/node/sv2_template_provider.cpp:447).
Note the source sets `m_coinbase_output_data_size_recv` on successful
deserialization, before the `MAX_BLOCK_WEIGHT` check. -/
def handleCoinbaseOutputDataSize (cfg : TPConfig) (env : MsgEnv)
    (parsed : Option Sv2CoinbaseOutputDataSizeMsg) (ps : ProcState) : ProcState :=
  if ps.client.m_setup_connection_confirmed = false then ps.disconnect
  else
    match parsed with
    | none => ps.disconnect
    | some coinbase_output_data_size =>
      let ps := { ps with
        client := { ps.client with m_coinbase_output_data_size_recv := true } }
      let max_additional_size := coinbase_output_data_size.m_coinbase_output_max_additional_size
      if max_additional_size > MAX_BLOCK_WEIGHT then ps.disconnect
      else
        let client := { ps.client with m_coinbase_tx_outputs_size := max_additional_size }
        let r := SendWork cfg ps.m_template_id ps.block_cache client true env
        { client := r.client, block_cache := r.block_cache, m_template_id := r.m_template_id,
          sent := ps.sent ++ r.sent, submitted := ps.submitted }

/-- The `SUBMIT_SOLUTION` branch (src/node/sv2_template_provider.cpp:484).
`mroot` abstracts `BlockMerkleRoot` (consensus code outside the source tree).
The source substitutes the submitted coinbase into the cached block, overwrites
the header fields, recomputes the Merkle root, and then `std::move`s the block
into the `shared_ptr` handed to `ProcessNewBlock`: the cached entry keeps its
scalar fields but its `vtx` vector is left empty (the source itself relies on
this moved-from state in its `block.vtx.size() == 0` branch). -/
def handleSubmitSolution (mroot : List CTransaction → Nat)
    (parsed : Option Sv2SubmitSolutionMsg) (ps : ProcState) : ProcState :=
  if ps.client.m_setup_connection_confirmed = false ∧
      ps.client.m_coinbase_output_data_size_recv = false then
    ps.disconnect
  else
    match parsed with
    | none => ps
    | some submit_solution =>
      match List.lookup submit_solution.m_template_id ps.block_cache with
      | none => ps
      | some cached_template =>
        let block := cached_template.block
        let cb := submit_solution.m_coinbase_tx
        let vtx := if block.vtx.length = 0 then [cb] else cb :: block.vtx.tail
        let block := { block with
          vtx := vtx,
          nVersion := submit_solution.m_version,
          nTime := submit_solution.m_header_timestamp,
          nNonce := submit_solution.m_header_nonce }
        let block := { block with hashMerkleRoot := mroot block.vtx }
        let gutted := { block with vtx := [] }
        { ps with
          block_cache := updateCache ps.block_cache submit_solution.m_template_id
            { cached_template with block := gutted },
          submitted := ps.submitted ++ [block] }

/-- The `witness_reserve_value` computation of the `REQUEST_TRANSACTION_DATA`
branch (src/node/sv2_template_provider.cpp:544): empty when the block is null
or the coinbase witness is null, otherwise the first witness-stack element of
the coinbase's first input; `none` when `block.vtx[0]` or `vin[0]` is an
out-of-bounds access on an empty vector. -/
def coinbaseWitnessReserve (block : CBlock) : Option (List Nat) :=
  if block.IsNull then some []
  else
    match block.vtx.get? 0 with
    | none => none
    | some tx0 =>
      match tx0.vin.get? 0 with
      | none => none
      | some in0 =>
        if in0.scriptWitness.IsNull then some []
        else some (in0.scriptWitness.stack.getD 0 [])

/-- The `REQUEST_TRANSACTION_DATA` branch (src/node/sv2_template_provider.cpp:527).
Returns `none` when the source performs an out-of-bounds vector access
(`block.vtx[0]` or `...->vin[0]` on an empty vector; possible for a cached
block gutted by a previous `SUBMIT_SOLUTION`). -/
def handleRequestTransactionData (ok : Bool)
    (parsed : Option Sv2RequestTransactionDataMsg) (ps : ProcState) : Option ProcState :=
  match parsed with
  | none => some ps
  | some request_tx_data =>
    match List.lookup request_tx_data.m_template_id ps.block_cache with
    | some cached_template =>
      let block := cached_template.block
      (coinbaseWitnessReserve block).bind
      (fun witness_reserve_value =>
        let txs := if block.vtx.length > 0 then block.vtx.tail else []
        if ok then
          some { ps with sent := ps.sent ++ [OutMsg.requestTransactionDataSuccess
            request_tx_data.m_template_id witness_reserve_value txs] }
        else some ps.disconnect)
    | none =>
      if ok then
        some { ps with sent := ps.sent ++ [OutMsg.requestTransactionDataError
          request_tx_data.m_template_id "template-id-not-found"] }
      else some ps.disconnect

/-- The dispatch switch of `Sv2TemplateProvider::ProcessSv2Message`
(src/node/sv2_template_provider.cpp:380); an unknown message type is logged and
ignored. -/
def processSv2Message (cfg : TPConfig) (mroot : List CTransaction → Nat) (env : MsgEnv)
    (msg : InMsg) (ps : ProcState) : Option ProcState :=
  match msg with
  | InMsg.setupConnection parsed => some (handleSetupConnection cfg env.ok1 parsed ps)
  | InMsg.coinbaseOutputDataSize parsed => some (handleCoinbaseOutputDataSize cfg env parsed ps)
  | InMsg.submitSolution parsed => some (handleSubmitSolution mroot parsed ps)
  | InMsg.requestTransactionData parsed => handleRequestTransactionData env.ok1 parsed ps
  | InMsg.unknown _ => some ps

/-- Processing a sequence of incoming messages, each with its environment, in
wire-arrival order (the inner loop of `ThreadSv2Handler`). -/
def processMsgs (cfg : TPConfig) (mroot : List CTransaction → Nat) :
    List (InMsg × MsgEnv) → ProcState → Option ProcState
  | [], ps => some ps
  | (msg, env) :: rest, ps =>
    (processSv2Message cfg mroot env msg ps).bind (processMsgs cfg mroot rest)

/-! ## The event-loop template phase (src/node/sv2_template_provider.cpp:156) -/

/-- The provider state carried across `ThreadSv2Handler` iterations. -/
structure LoopState where
  m_best_prev_hash : Nat
  m_block_cache : BlockCache
  m_sv2_clients : List Sv2Client
  m_template_id : Nat
  template_last_update : Nat
deriving DecidableEq

structure RefreshResult where
  st : LoopState
  best_block_changed : Bool
  should_make_template : Bool
deriving DecidableEq

/-- Lines 156–189 of `ThreadSv2Handler`: compare `g_best_block` (the condvar-
guarded best block hash, an input here) with `m_best_prev_hash`; on a change,
clear the block cache, reset every client's `m_latest_submitted_template_fees`
to 0 and schedule a rebuild; otherwise rebuild only if the timer fired and the
mempool advanced. -/
def refreshPhase (st : LoopState) (g_best_block : Nat) (timer_triggered : Bool)
    (mempool_last_update : Nat) : RefreshResult :=
  let changed := st.m_best_prev_hash ≠ g_best_block
  let st := if changed then { st with m_best_prev_hash := g_best_block } else st
  if changed then
    { st := { st with
        m_block_cache := [],
        m_sv2_clients := st.m_sv2_clients.map
          (fun client => { client with m_latest_submitted_template_fees := 0 }),
        template_last_update := mempool_last_update },
      best_block_changed := true,
      should_make_template := true }
  else
    { st := st,
      best_block_changed := false,
      should_make_template := timer_triggered && decide (mempool_last_update > st.template_last_update) }

/-- A default `MsgEnv` (an empty template, sends succeeding), used only when a
`sendLoop` environment list is too short. -/
def MsgEnv.default : MsgEnv :=
  { blocktemplate :=
      { block := { nVersion := 0, nTime := 0, nNonce := 0, nBits := 0, hashPrevBlock := 0,
                   hashMerkleRoot := 0, vtx := [] },
        vTxFees := [] },
    ok1 := true, ok2 := true }

/-- Lines 191–202 of `ThreadSv2Handler`: for every client that has already sent
`CoinbaseOutputDataSize` (`m_coinbase_tx_outputs_size ≠ 0`), call `SendWork`,
flagging the client for disconnect on failure. `envs` supplies each client's
external inputs positionally; `m_template_id` and the cache thread through. -/
def sendLoop (cfg : TPConfig) (best_block_changed : Bool) :
    List Sv2Client → List MsgEnv → Nat → BlockCache →
    List Sv2Client × Nat × BlockCache × List (List OutMsg)
  | [], _, template_id, cache => ([], template_id, cache, [])
  | client :: clients, envs, template_id, cache =>
    if client.m_coinbase_tx_outputs_size = 0 then
      let (clients2, tid2, cache2, sents) :=
        sendLoop cfg best_block_changed clients envs.tail template_id cache
      (client :: clients2, tid2, cache2, [] :: sents)
    else
      let env := envs.headD MsgEnv.default
      let r := SendWork cfg template_id cache client best_block_changed env
      let client2 := if r.success then r.client else { r.client with m_disconnect_flag := true }
      let (clients2, tid2, cache2, sents) :=
        sendLoop cfg best_block_changed clients envs.tail r.m_template_id r.block_cache
      (client2 :: clients2, tid2, cache2, r.sent :: sents)

/-- One iteration's whole template phase: the best-block/mempool refresh logic
followed, when a rebuild is due, by the per-client send loop. -/
def iterTemplatePhase (cfg : TPConfig) (st : LoopState) (g_best_block : Nat)
    (timer_triggered : Bool) (mempool_last_update : Nat) (envs : List MsgEnv) :
    LoopState × List (List OutMsg) :=
  let r := refreshPhase st g_best_block timer_triggered mempool_last_update
  if r.should_make_template then
    let (clients2, tid2, cache2, sents) :=
      sendLoop cfg r.best_block_changed r.st.m_sv2_clients envs r.st.m_template_id
        r.st.m_block_cache
    ({ r.st with m_sv2_clients := clients2, m_template_id := tid2, m_block_cache := cache2 },
      sents)
  else (r.st, [])

/-! ## Concrete fixtures for witnesses and counterexamples -/

/-- A coinbase-shaped transaction: one input whose witness stack holds the
32-ish-byte witness reserve value (shortened here to `[7, 7]`). -/
def tx_cb : CTransaction :=
  { vin := [{ scriptWitness := { stack := [[7, 7]] } }], payload := 100 }

/-- A non-coinbase transaction. -/
def tx1 : CTransaction := { vin := [], payload := 101 }

/-- The replacement coinbase a miner submits with a solution. -/
def tx_cb2 : CTransaction :=
  { vin := [{ scriptWitness := { stack := [[7, 7]] } }], payload := 200 }

def block0 : CBlock :=
  { nVersion := 1, nTime := 1000, nNonce := 5, nBits := 386089497,
    hashPrevBlock := 11, hashMerkleRoot := 22, vtx := [tx_cb, tx1] }

def template0 : CBlockTemplate := { block := block0, vTxFees := [-1, 500] }

def cache0 : BlockCache := [(1, template0)]

/-- A concrete stand-in for the abstract `BlockMerkleRoot` parameter. -/
def mroot0 : List CTransaction → Nat := fun txs => txs.length

def cfg0 : TPConfig :=
  { m_protocol_version := 2, m_optional_features := 0, m_minimum_fee_delta := 10 }

def env0 : MsgEnv := { blocktemplate := template0, ok1 := true, ok2 := true }

def sol0 : Sv2SubmitSolutionMsg :=
  { m_template_id := 1, m_version := 9, m_header_timestamp := 1234, m_header_nonce := 42,
    m_coinbase_tx := tx_cb2 }

def req0 : Sv2RequestTransactionDataMsg := { m_template_id := 1 }

/-- A client that completed `SetupConnection` but never sent
`CoinbaseOutputDataSize`. -/
def clientConfirmedOnly : Sv2Client :=
  { m_setup_connection_confirmed := true, m_coinbase_output_data_size_recv := false,
    m_coinbase_tx_outputs_size := 0, m_latest_submitted_template_fees := 0,
    m_disconnect_flag := false }

/-- A client that completed the full setup sequence. -/
def clientReady : Sv2Client :=
  { m_setup_connection_confirmed := true, m_coinbase_output_data_size_recv := true,
    m_coinbase_tx_outputs_size := 100, m_latest_submitted_template_fees := 0,
    m_disconnect_flag := false }

def psC1 : ProcState :=
  { client := clientConfirmedOnly, block_cache := cache0, m_template_id := 5,
    sent := [], submitted := [] }

def psC9 : ProcState :=
  { client := clientReady, block_cache := cache0, m_template_id := 5,
    sent := [], submitted := [] }

/-- A transparent decrypt oracle (stateless, always succeeding): enough to
exercise the frame decoder's buffer accesses. -/
def idDecrypt : Unit → List Nat → Option (List Nat × Unit) :=
  fun _ bytes => some (bytes, ())

/-- A 27-byte buffer: a full 22-byte encrypted header whose decrypted 6 bytes
declare `msg_length = 10` (so `EncryptedMessageSize 10 = 26` payload bytes are
expected) followed by only 5 further bytes. -/
def shortPayloadBuffer : List Nat :=
  [0, 0, 113, 10, 0, 0] ++ List.replicate 16 0 ++ List.replicate 5 0

/-! ## Claim C10 -/

/-- Claim C10: `PROTOCOL_NAME_HASH` equals SHA-256 of the ASCII string
"Noise_NX_EllSwiftXonly_ChaChaPoly_SHA256", `PROTOCOL_NAME_DOUBLE_HASH` equals
SHA-256 of `PROTOCOL_NAME_HASH`, and a freshly constructed `Sv2SymmetricState`
has chaining key `PROTOCOL_NAME_HASH` and hash output `PROTOCOL_NAME_DOUBLE_HASH`. -/
theorem claim_C10_protocol_name_constants :
    sha256 protocolNameBytes = PROTOCOL_NAME_HASH ∧
    sha256 PROTOCOL_NAME_HASH = PROTOCOL_NAME_DOUBLE_HASH ∧
    Sv2SymmetricState.init.m_chaining_key = PROTOCOL_NAME_HASH ∧
    Sv2SymmetricState.init.m_hash_output = PROTOCOL_NAME_DOUBLE_HASH :=
  ⟨by decide, by decide, rfl, rfl⟩

/-! ## Claim C1

The source guard (src/node/sv2_template_provider.cpp:487) is
`if (!m_setup_connection_confirmed && !m_coinbase_output_data_size_recv)`,
which disconnects only when BOTH flags are unset. A client with
`setup_confirmed` set but `cbsize_received` unset therefore has its
`SubmitSolution` fully processed (block substituted and submitted) and is NOT
disconnected, contradicting the claim (and spec §4.6), which requires both
flags. The theorem below evaluates the embedded handler at that failing input. -/

/-- Claim C1 (failing-input evaluation): with `setup_confirmed = true` and
`cbsize_received = false`, a `SubmitSolution` whose `template_id` is cached is
processed — a block is submitted to the chain — and the client is not
disconnected, contrary to the claim. -/
theorem claim_C1_submit_solution_flag_guard :
    psC1.client.m_setup_connection_confirmed = true ∧
    psC1.client.m_coinbase_output_data_size_recv = false ∧
    (handleSubmitSolution mroot0 (some sol0) psC1).submitted ≠ [] ∧
    (handleSubmitSolution mroot0 (some sol0) psC1).client.m_disconnect_flag = false := by
  decide

/-! ## Claim C2

`ReadAndDecryptSv2NetMsgs` (src/node/sv2_template_provider.cpp:614) constructs
`Span(&buffer[bytes_read], SV2_HEADER_ENCRYPTED_SIZE)` and
`Span(&buffer[bytes_read], expanded_size)` guarded only by
`bytes_read < buffer.size()`: when fewer than 22 bytes remain for the header,
or fewer than `EncryptedMessageSize(msg_length)` bytes remain for the payload,
the span extends past the buffer's end and `DecryptMessage` reads out of
bounds. The embedding represents such an access as `ReadResult.oob`. -/

/-- Claim C2 (failing-input evaluation): decoding a 10-byte buffer (short
header) or a 27-byte buffer whose header declares a 10-byte message (short
payload: 26 encrypted bytes expected, 5 remaining) performs an out-of-bounds
read instead of dropping the connection. -/
theorem claim_C2_short_frame_out_of_bounds :
    readBuffer idDecrypt () (List.replicate 10 0) = ReadResult.oob ∧
    readBuffer idDecrypt () shortPayloadBuffer = ReadResult.oob := by
  decide

/-! ## Claim C3 -/

/-- The fee fold of `SendWork` (skip negatives) computes `Σ max(0, fee)`,
the formula the spec states. -/
theorem sumFees_eq_specFees (l : List Int) : sumFees l = specFees l := by
  have go : ∀ (t : List Int) (acc : Int),
      t.foldl (fun fees fee => if fee < 0 then fees else fees + fee) acc = acc + specFees t := by
    intro t
    induction t with
    | nil => intro acc; simp [specFees]
    | cons f t ih =>
      intro acc
      simp only [List.foldl_cons, specFees, List.map_cons, List.sum_cons]
      rw [ih]
      have hs : ((t.map fun fee => max 0 fee).sum : Int) = specFees t := rfl
      by_cases hf : f < 0
      · rw [if_pos hf, max_eq_left hf.le, hs]
        omega
      · rw [if_neg hf, max_eq_right (by omega), hs]
        omega
  simpa [sumFees] using go l 0

/-- Claim C3: in `SendWork` with `send_new_prevhash = false`, the fee total is
the sum of the non-negative `vTxFees` entries (negatives, i.e. the coinbase's
`-1`, excluded), and when `latest_template_fees + minimum_fee_delta` exceeds
it, `SendWork` returns success having sent nothing, stored nothing in the
block cache, and left the client (in particular its
`m_latest_submitted_template_fees`) unchanged. -/
theorem claim_C3_fee_delta_gate (cfg : TPConfig) (template_id : Nat) (cache : BlockCache)
    (client : Sv2Client) (env : MsgEnv)
    (h : client.m_latest_submitted_template_fees + cfg.m_minimum_fee_delta >
      sumFees env.blocktemplate.vTxFees) :
    (SendWork cfg template_id cache client false env).success = true ∧
    (SendWork cfg template_id cache client false env).sent = [] ∧
    (SendWork cfg template_id cache client false env).block_cache = cache ∧
    (SendWork cfg template_id cache client false env).client = client ∧
    sumFees env.blocktemplate.vTxFees = specFees env.blocktemplate.vTxFees := by
  refine ⟨?_, ?_, ?_, ?_, sumFees_eq_specFees _⟩ <;>
    simp [SendWork, BuildNewWorkSet, h]

/-- Claim C3 witness: a concrete client whose accumulated fees plus the
configured delta exceed the new template's fees. -/
theorem claim_C3_fee_delta_gate_witness :
    ({ clientReady with m_latest_submitted_template_fees := 1000 }.m_latest_submitted_template_fees
        + cfg0.m_minimum_fee_delta > sumFees env0.blocktemplate.vTxFees) ∧
    ((SendWork cfg0 5 cache0 { clientReady with m_latest_submitted_template_fees := 1000 }
        false env0).success = true ∧
      (SendWork cfg0 5 cache0 { clientReady with m_latest_submitted_template_fees := 1000 }
        false env0).sent = [] ∧
      (SendWork cfg0 5 cache0 { clientReady with m_latest_submitted_template_fees := 1000 }
        false env0).block_cache = cache0 ∧
      (SendWork cfg0 5 cache0 { clientReady with m_latest_submitted_template_fees := 1000 }
        false env0).client = { clientReady with m_latest_submitted_template_fees := 1000 } ∧
      sumFees env0.blocktemplate.vTxFees = specFees env0.blocktemplate.vTxFees) :=
  ⟨by decide,
   claim_C3_fee_delta_gate cfg0 5 cache0
     { clientReady with m_latest_submitted_template_fees := 1000 } env0 (by decide)⟩

/-! ## Claim C4 -/

/-- The wire-ordering property of spec §8.8: every `NewTemplate` with
`future_template = true` is immediately followed by a `SetNewPrevHash` with the
same `template_id`, and a `NewTemplate` with `future_template = false` is never
accompanied by a `SetNewPrevHash` for its `template_id`. -/
def NewTemplatePairing (sent : List OutMsg) : Prop :=
  ∀ i m, sent.get? i = some (OutMsg.newTemplate m) →
    (m.future_template = true →
      ∃ p, sent.get? (i + 1) = some (OutMsg.setNewPrevHash p) ∧
        p.template_id = m.template_id) ∧
    (m.future_template = false →
      ∀ j p, sent.get? j = some (OutMsg.setNewPrevHash p) → p.template_id ≠ m.template_id)

theorem pairing_nil : NewTemplatePairing [] := by
  intro i m h
  simp at h

theorem pairing_single (t : Sv2NewTemplateMsg) (hf : t.future_template = false) :
    NewTemplatePairing [OutMsg.newTemplate t] := by
  intro i m h
  cases i with
  | zero =>
    simp only [List.get?_cons_zero, Option.some.injEq, OutMsg.newTemplate.injEq] at h
    subst h
    refine ⟨fun htrue => absurd htrue (by simp [hf]), fun _ j p hj => ?_⟩
    cases j with
    | zero => simp at hj
    | succ j => simp at hj
  | succ i => simp at h

theorem pairing_pair (t : Sv2NewTemplateMsg) (p0 : Sv2SetNewPrevHashMsg)
    (hf : t.future_template = true) (hid : p0.template_id = t.template_id) :
    NewTemplatePairing [OutMsg.newTemplate t, OutMsg.setNewPrevHash p0] := by
  intro i m h
  cases i with
  | zero =>
    simp only [List.get?_cons_zero, Option.some.injEq, OutMsg.newTemplate.injEq] at h
    subst h
    exact ⟨fun _ => ⟨p0, by simp, hid⟩, fun hfalse => absurd hf (by simp [hfalse])⟩
  | succ i =>
    cases i with
    | zero => simp at h
    | succ i => simp at h

/-- Claim C4: in every successful `SendWork` send sequence, a `NewTemplate`
with `future_template = true` is immediately followed by a `SetNewPrevHash`
carrying the same `template_id`, and a `NewTemplate` with
`future_template = false` is never followed by a `SetNewPrevHash` for its
`template_id`. -/
theorem claim_C4_new_template_pairing (cfg : TPConfig) (template_id : Nat)
    (cache : BlockCache) (client : Sv2Client) (send_new_prevhash : Bool) (env : MsgEnv)
    (h : (SendWork cfg template_id cache client send_new_prevhash env).success = true) :
    NewTemplatePairing (SendWork cfg template_id cache client send_new_prevhash env).sent := by
  cases send_new_prevhash with
  | false =>
    by_cases hgate : client.m_latest_submitted_template_fees + cfg.m_minimum_fee_delta >
        sumFees env.blocktemplate.vTxFees
    · simp only [SendWork, BuildNewWorkSet]
      simp [hgate]
      exact pairing_nil
    · cases hok1 : env.ok1 with
      | false => simp [SendWork, BuildNewWorkSet, hgate, hok1] at h
      | true =>
        simp only [SendWork, BuildNewWorkSet]
        simp [hgate, hok1]
        exact pairing_single _ rfl
  | true =>
    cases hok1 : env.ok1 with
    | false => simp [SendWork, BuildNewWorkSet, hok1] at h
    | true =>
      cases hok2 : env.ok2 with
      | false => simp [SendWork, BuildNewWorkSet, hok1, hok2] at h
      | true =>
        simp only [SendWork, BuildNewWorkSet]
        simp [hok1, hok2]
        exact pairing_pair _ _ rfl rfl

/-- Claim C4 witness: a concrete successful `SendWork` with
`send_new_prevhash = true`. -/
theorem claim_C4_new_template_pairing_witness :
    (SendWork cfg0 5 [] clientReady true env0).success = true ∧
    NewTemplatePairing (SendWork cfg0 5 [] clientReady true env0).sent :=
  ⟨by decide, claim_C4_new_template_pairing cfg0 5 [] clientReady true env0 (by decide)⟩

/-! ## Claim C5 -/

/-- Claim C5: for a well-formed `SetupConnection` from a not-yet-confirmed
client (with the reply send succeeding): a protocol other than 0x02 draws
`SetupConnectionError "unsupported-protocol"` and a disconnect; an incompatible
version range (`min_version` above the server's version or `max_version` below
it) draws `SetupConnectionError "protocol-version-mismatch"` and a disconnect;
otherwise the server sends `SetupConnectionSuccess{version, optional_features}`
and marks the client `setup_confirmed`. -/
theorem claim_C5_setup_connection (cfg : TPConfig) (m : Sv2SetupConnectionMsg) (ps : ProcState)
    (hconf : ps.client.m_setup_connection_confirmed = false) :
    (m.m_protocol ≠ TP_SUBPROTOCOL →
      handleSetupConnection cfg true (some m) ps =
        { ps.disconnect with sent := ps.sent ++
          [OutMsg.setupConnectionError m.m_flags "unsupported-protocol"] }) ∧
    (m.m_protocol = TP_SUBPROTOCOL →
      (cfg.m_protocol_version < m.m_min_version ∨ m.m_max_version < cfg.m_protocol_version) →
      handleSetupConnection cfg true (some m) ps =
        { ps.disconnect with sent := ps.sent ++
          [OutMsg.setupConnectionError m.m_flags "protocol-version-mismatch"] }) ∧
    (m.m_protocol = TP_SUBPROTOCOL →
      m.m_min_version ≤ cfg.m_protocol_version → cfg.m_protocol_version ≤ m.m_max_version →
      handleSetupConnection cfg true (some m) ps =
        { ps with
          client := { ps.client with m_setup_connection_confirmed := true },
          sent := ps.sent ++ [OutMsg.setupConnectionSuccess cfg.m_protocol_version
            cfg.m_optional_features] }) := by
  refine ⟨fun hproto => ?_, fun hproto hver => ?_, fun hproto hmin hmax => ?_⟩
  · simp [handleSetupConnection, hconf, hproto]
  · have hv : cfg.m_protocol_version < m.m_min_version ∨
        cfg.m_protocol_version > m.m_max_version := by omega
    simp [handleSetupConnection, hconf, hproto, hv]
  · have hv : ¬(cfg.m_protocol_version < m.m_min_version ∨
        cfg.m_protocol_version > m.m_max_version) := by omega
    simp [handleSetupConnection, hconf, hproto, hv]

/-- Claim C5 witness: a not-yet-confirmed client and a message exercising each
of the three branches (wrong protocol, version mismatch, success). -/
theorem claim_C5_setup_connection_witness :
    (Sv2Client.init.m_setup_connection_confirmed = false) ∧
    (handleSetupConnection cfg0 true
        (some { m_protocol := 3, m_min_version := 2, m_max_version := 2, m_flags := 1 })
        { psC1 with client := Sv2Client.init } =
      { ({ psC1 with client := Sv2Client.init }).disconnect with
        sent := [OutMsg.setupConnectionError 1 "unsupported-protocol"] }) ∧
    (handleSetupConnection cfg0 true
        (some { m_protocol := 2, m_min_version := 3, m_max_version := 4, m_flags := 1 })
        { psC1 with client := Sv2Client.init } =
      { ({ psC1 with client := Sv2Client.init }).disconnect with
        sent := [OutMsg.setupConnectionError 1 "protocol-version-mismatch"] }) ∧
    (handleSetupConnection cfg0 true
        (some { m_protocol := 2, m_min_version := 2, m_max_version := 2, m_flags := 1 })
        { psC1 with client := Sv2Client.init } =
      { psC1 with
        client := { Sv2Client.init with m_setup_connection_confirmed := true },
        sent := [OutMsg.setupConnectionSuccess 2 0] }) :=
  ⟨rfl,
   (claim_C5_setup_connection cfg0 _ _ rfl).1 (by decide),
   (claim_C5_setup_connection cfg0 _ _ rfl).2.1 rfl (by decide),
   (claim_C5_setup_connection cfg0 _ _ rfl).2.2 rfl (by decide) (by decide)⟩

/-! ## Claim C6 -/

/-- Claim C6: a well-formed `RequestTransactionData` whose `template_id` is
cached (with a non-null block whose coinbase has an input carrying a witness)
draws `RequestTransactionDataSuccess` with that `template_id`, the template's
transactions excluding the coinbase, and the first witness-stack element of the
coinbase's first input; an uncached `template_id` draws
`RequestTransactionDataError "template-id-not-found"` with the client state
untouched (connection kept open). -/
theorem claim_C6_request_transaction_data (ps : ProcState)
    (req : Sv2RequestTransactionDataMsg) :
    (∀ tpl tx0 rest in0 vins s0 stk,
      List.lookup req.m_template_id ps.block_cache = some tpl →
      tpl.block.IsNull = false →
      tpl.block.vtx = tx0 :: rest →
      tx0.vin = in0 :: vins →
      in0.scriptWitness.stack = s0 :: stk →
      handleRequestTransactionData true (some req) ps =
        some { ps with sent := ps.sent ++
          [OutMsg.requestTransactionDataSuccess req.m_template_id s0 rest] }) ∧
    (List.lookup req.m_template_id ps.block_cache = none →
      handleRequestTransactionData true (some req) ps =
        some { ps with sent := ps.sent ++
          [OutMsg.requestTransactionDataError req.m_template_id "template-id-not-found"] }) := by
  constructor
  · intro tpl tx0 rest in0 vins s0 stk hlook hnull hvtx hvin hstack
    simp [handleRequestTransactionData, coinbaseWitnessReserve, hlook, hnull, hvtx, hvin,
      hstack, CScriptWitness.IsNull]
  · intro hlook
    simp [handleRequestTransactionData, hlook]

/-- Claim C6 witness: the concrete cached template `template0` (found and
not-found cases). -/
theorem claim_C6_request_transaction_data_witness :
    (List.lookup req0.m_template_id psC9.block_cache = some template0) ∧
    (handleRequestTransactionData true (some req0) psC9 =
      some { psC9 with sent :=
        [OutMsg.requestTransactionDataSuccess req0.m_template_id [7, 7] [tx1]] }) ∧
    (handleRequestTransactionData true (some { m_template_id := 99 })
        psC9 =
      some { psC9 with sent :=
        [OutMsg.requestTransactionDataError 99 "template-id-not-found"] }) :=
  ⟨by decide,
   by
    have h := (claim_C6_request_transaction_data psC9 req0).1 template0 tx_cb [tx1]
      { scriptWitness := { stack := [[7, 7]] } } [] [7, 7] []
      (by decide) (by decide) (by decide) (by decide) (by decide)
    simpa using h,
   (claim_C6_request_transaction_data psC9 { m_template_id := 99 }).2 (by decide)⟩

/-! ## Claim C7 -/

/-- The state reached by the refresh logic right after a best-block change:
best hash adopted, block cache cleared, every client's
`m_latest_submitted_template_fees` reset to 0, mempool counter latched. -/
def clearedState (st : LoopState) (g_best_block mempool_last_update : Nat) : LoopState :=
  { st with
    m_best_prev_hash := g_best_block,
    m_block_cache := [],
    m_sv2_clients := st.m_sv2_clients.map
      (fun client => { client with m_latest_submitted_template_fees := 0 }),
    template_last_update := mempool_last_update }

/-- Claim C7: on an event-loop iteration where the best block hash changed,
the refresh step yields exactly the cleared state — empty block cache, every
client's `m_latest_submitted_template_fees` equal to 0 — and the iteration's
template phase runs its send loop from that cleared state, i.e. the clearing
happens before any new template is built or sent. -/
theorem claim_C7_best_block_change_clears (cfg : TPConfig) (st : LoopState)
    (g_best_block : Nat) (timer_triggered : Bool) (mempool_last_update : Nat)
    (envs : List MsgEnv) (h : st.m_best_prev_hash ≠ g_best_block) :
    refreshPhase st g_best_block timer_triggered mempool_last_update =
      { st := clearedState st g_best_block mempool_last_update,
        best_block_changed := true, should_make_template := true } ∧
    (clearedState st g_best_block mempool_last_update).m_block_cache = [] ∧
    (∀ client ∈ (clearedState st g_best_block mempool_last_update).m_sv2_clients,
      client.m_latest_submitted_template_fees = 0) ∧
    iterTemplatePhase cfg st g_best_block timer_triggered mempool_last_update envs =
      (let r := sendLoop cfg true (clearedState st g_best_block mempool_last_update).m_sv2_clients
          envs (clearedState st g_best_block mempool_last_update).m_template_id
          (clearedState st g_best_block mempool_last_update).m_block_cache
       ({ clearedState st g_best_block mempool_last_update with
            m_sv2_clients := r.1, m_template_id := r.2.1, m_block_cache := r.2.2.1 },
         r.2.2.2)) := by
  have href : refreshPhase st g_best_block timer_triggered mempool_last_update =
      { st := clearedState st g_best_block mempool_last_update,
        best_block_changed := true, should_make_template := true } := by
    simp [refreshPhase, clearedState, h]
  refine ⟨href, rfl, ?_, ?_⟩
  · intro client hmem
    simp only [clearedState, List.mem_map] at hmem
    obtain ⟨c, _, rfl⟩ := hmem
    rfl
  · simp only [iterTemplatePhase, href]
    rfl

/-- Claim C7 witness: a two-client concrete state with a changed best hash. -/
theorem claim_C7_best_block_change_clears_witness :
    ({ m_best_prev_hash := 11, m_block_cache := cache0,
       m_sv2_clients := [clientReady, { clientReady with m_latest_submitted_template_fees := 7 }],
       m_template_id := 5, template_last_update := 0 } : LoopState).m_best_prev_hash ≠ 12 ∧
    refreshPhase
        { m_best_prev_hash := 11, m_block_cache := cache0,
          m_sv2_clients := [clientReady, { clientReady with m_latest_submitted_template_fees := 7 }],
          m_template_id := 5, template_last_update := 0 } 12 false 3 =
      { st := clearedState
          { m_best_prev_hash := 11, m_block_cache := cache0,
            m_sv2_clients := [clientReady, { clientReady with m_latest_submitted_template_fees := 7 }],
            m_template_id := 5, template_last_update := 0 } 12 3,
        best_block_changed := true, should_make_template := true } :=
  ⟨by decide,
   (claim_C7_best_block_change_clears cfg0
     { m_best_prev_hash := 11, m_block_cache := cache0,
       m_sv2_clients := [clientReady, { clientReady with m_latest_submitted_template_fees := 7 }],
       m_template_id := 5, template_last_update := 0 } 12 false 3 [] (by decide)).1⟩

/-! ## Claim C8 -/

theorem sendWork_size_eq (cfg : TPConfig) (template_id : Nat) (cache : BlockCache)
    (client : Sv2Client) (b : Bool) (env : MsgEnv) :
    (SendWork cfg template_id cache client b env).client.m_coinbase_tx_outputs_size =
      client.m_coinbase_tx_outputs_size := by
  simp only [SendWork, BuildNewWorkSet]
  split_ifs <;> rfl

theorem handleSetupConnection_size_eq (cfg : TPConfig) (ok : Bool)
    (p : Option Sv2SetupConnectionMsg) (ps : ProcState) :
    (handleSetupConnection cfg ok p ps).client.m_coinbase_tx_outputs_size =
      ps.client.m_coinbase_tx_outputs_size := by
  cases p <;> simp only [handleSetupConnection, ProcState.disconnect] <;> split_ifs <;> rfl

theorem handleSubmitSolution_size_eq (mroot : List CTransaction → Nat)
    (p : Option Sv2SubmitSolutionMsg) (ps : ProcState) :
    (handleSubmitSolution mroot p ps).client.m_coinbase_tx_outputs_size =
      ps.client.m_coinbase_tx_outputs_size := by
  cases p with
  | none => simp only [handleSubmitSolution, ProcState.disconnect]; split_ifs <;> rfl
  | some sol =>
    simp only [handleSubmitSolution, ProcState.disconnect]
    split_ifs with hflags
    · rfl
    · split <;> rfl

theorem handleRequestTransactionData_size_eq (ok : Bool)
    (p : Option Sv2RequestTransactionDataMsg) (ps ps' : ProcState)
    (h : handleRequestTransactionData ok p ps = some ps') :
    ps'.client.m_coinbase_tx_outputs_size = ps.client.m_coinbase_tx_outputs_size := by
  cases p with
  | none =>
    simp only [handleRequestTransactionData, Option.some.injEq] at h
    subst h; rfl
  | some req =>
    cases hlook : List.lookup req.m_template_id ps.block_cache with
    | none =>
      simp only [handleRequestTransactionData, ProcState.disconnect, hlook] at h
      split_ifs at h <;> (simp only [Option.some.injEq] at h; subst h; rfl)
    | some tpl =>
      simp only [handleRequestTransactionData, ProcState.disconnect, hlook] at h
      cases hw : coinbaseWitnessReserve tpl.block with
      | none => rw [hw] at h; simp at h
      | some wrv =>
        rw [hw] at h
        simp only [Option.some_bind] at h
        split_ifs at h <;> (simp only [Option.some.injEq] at h; subst h; rfl)

theorem handleCoinbaseOutputDataSize_size_le (cfg : TPConfig) (env : MsgEnv)
    (p : Option Sv2CoinbaseOutputDataSizeMsg) (ps : ProcState)
    (hinv : ps.client.m_coinbase_tx_outputs_size ≤ MAX_BLOCK_WEIGHT) :
    (handleCoinbaseOutputDataSize cfg env p ps).client.m_coinbase_tx_outputs_size ≤
      MAX_BLOCK_WEIGHT := by
  unfold handleCoinbaseOutputDataSize ProcState.disconnect
  split
  · exact hinv
  · split
    · exact hinv
    · dsimp only
      split_ifs with hsize
      · exact hinv
      · simp only [sendWork_size_eq]
        omega

/-- Per-message preservation of the `m_coinbase_tx_outputs_size` bound. -/
theorem processSv2Message_size_le (cfg : TPConfig) (mroot : List CTransaction → Nat)
    (env : MsgEnv) (msg : InMsg) (ps ps' : ProcState)
    (hinv : ps.client.m_coinbase_tx_outputs_size ≤ MAX_BLOCK_WEIGHT)
    (hstep : processSv2Message cfg mroot env msg ps = some ps') :
    ps'.client.m_coinbase_tx_outputs_size ≤ MAX_BLOCK_WEIGHT := by
  cases msg with
  | setupConnection p =>
    simp only [processSv2Message, Option.some.injEq] at hstep
    subst hstep
    rw [handleSetupConnection_size_eq]
    exact hinv
  | coinbaseOutputDataSize p =>
    simp only [processSv2Message, Option.some.injEq] at hstep
    subst hstep
    exact handleCoinbaseOutputDataSize_size_le cfg env p ps hinv
  | submitSolution p =>
    simp only [processSv2Message, Option.some.injEq] at hstep
    subst hstep
    rw [handleSubmitSolution_size_eq]
    exact hinv
  | requestTransactionData p =>
    simp only [processSv2Message] at hstep
    rw [handleRequestTransactionData_size_eq _ _ _ _ hstep]
    exact hinv
  | unknown t =>
    simp only [processSv2Message, Option.some.injEq] at hstep
    subst hstep
    exact hinv

theorem processMsgs_size_le (cfg : TPConfig) (mroot : List CTransaction → Nat)
    (msgs : List (InMsg × MsgEnv)) (ps ps' : ProcState)
    (hinv : ps.client.m_coinbase_tx_outputs_size ≤ MAX_BLOCK_WEIGHT)
    (hrun : processMsgs cfg mroot msgs ps = some ps') :
    ps'.client.m_coinbase_tx_outputs_size ≤ MAX_BLOCK_WEIGHT := by
  induction msgs generalizing ps with
  | nil =>
    simp only [processMsgs, Option.some.injEq] at hrun
    subst hrun
    exact hinv
  | cons me rest ih =>
    obtain ⟨msg, env⟩ := me
    simp only [processMsgs] at hrun
    cases hstep : processSv2Message cfg mroot env msg ps with
    | none => rw [hstep] at hrun; simp at hrun
    | some ps1 =>
      rw [hstep] at hrun
      simp only [Option.some_bind] at hrun
      exact ih ps1 (processSv2Message_size_le cfg mroot env msg ps ps1 hinv hstep) hrun

/-- Claim C8: the invariant `m_coinbase_tx_outputs_size ≤ MAX_BLOCK_WEIGHT`
holds along every processed message sequence — it holds of a fresh client and
is preserved by `processSv2Message` — and a `CoinbaseOutputDataSize` whose
size exceeds `MAX_BLOCK_WEIGHT` only flags the client for disconnect (and
records that the message was received) without recording the size. -/
theorem claim_C8_coinbase_size_invariant :
    (Sv2Client.init.m_coinbase_tx_outputs_size ≤ MAX_BLOCK_WEIGHT) ∧
    (∀ (cfg : TPConfig) (mroot : List CTransaction → Nat)
        (msgs : List (InMsg × MsgEnv)) (ps ps' : ProcState),
      ps.client.m_coinbase_tx_outputs_size ≤ MAX_BLOCK_WEIGHT →
      processMsgs cfg mroot msgs ps = some ps' →
      ps'.client.m_coinbase_tx_outputs_size ≤ MAX_BLOCK_WEIGHT) ∧
    (∀ (cfg : TPConfig) (env : MsgEnv) (m : Sv2CoinbaseOutputDataSizeMsg) (ps : ProcState),
      ps.client.m_setup_connection_confirmed = true →
      m.m_coinbase_output_max_additional_size > MAX_BLOCK_WEIGHT →
      handleCoinbaseOutputDataSize cfg env (some m) ps =
        { ps with client := { ps.client with
            m_coinbase_output_data_size_recv := true, m_disconnect_flag := true } }) := by
  refine ⟨by decide, processMsgs_size_le, fun cfg env m ps hconf hsize => ?_⟩
  simp [handleCoinbaseOutputDataSize, ProcState.disconnect, hconf, hsize]

/-- A concrete one-message sequence: an in-bounds `CoinbaseOutputDataSize` of 4000. -/
def msgsC8 : List (InMsg × MsgEnv) :=
  [(InMsg.coinbaseOutputDataSize (some { m_coinbase_output_max_additional_size := 4000 }), env0)]

/-- The state `processMsgs` reaches from `psC9` on `msgsC8`. -/
def ps1C8 : ProcState :=
  { client := { m_setup_connection_confirmed := true, m_coinbase_output_data_size_recv := true,
                m_coinbase_tx_outputs_size := 4000, m_latest_submitted_template_fees := 500,
                m_disconnect_flag := false },
    block_cache := [(6, template0), (1, template0)],
    m_template_id := 6,
    sent := [OutMsg.newTemplate { template_id := 6, future_template := true },
             OutMsg.setNewPrevHash { template_id := 6, prev_hash := 11 }],
    submitted := [] }

/-- Claim C8 witness: the invariant transported along the concrete run
`msgsC8`, and a concrete oversize `CoinbaseOutputDataSize` (4000001). -/
theorem claim_C8_coinbase_size_invariant_witness :
    ps1C8.client.m_coinbase_tx_outputs_size ≤ MAX_BLOCK_WEIGHT ∧
    handleCoinbaseOutputDataSize cfg0 env0
        (some { m_coinbase_output_max_additional_size := 4000001 }) psC9 =
      { psC9 with client := { psC9.client with
          m_coinbase_output_data_size_recv := true, m_disconnect_flag := true } } :=
  ⟨claim_C8_coinbase_size_invariant.2.1 cfg0 mroot0 msgsC8 psC9 ps1C8 (by decide) (by decide),
   claim_C8_coinbase_size_invariant.2.2 cfg0 env0 _ psC9 (by decide) (by decide)⟩

/-! ## Claim C9

The `SUBMIT_SOLUTION` handler mutates the cached block in place and then
`std::move`s it into the `shared_ptr` handed to `ProcessNewBlock`
(src/node/sv2_template_provider.cpp:518): the cache entry stays present but its
`vtx` vector is emptied by the move (a state the source itself anticipates in
its `block.vtx.size() == 0` branch at line 507). The claim — that a later
`RequestTransactionData` for the same `template_id` returns the same
transaction list as before — is therefore false: afterwards the handler finds
a non-null block with an empty `vtx` and performs the out-of-bounds
`block.vtx[0]` access. -/

theorem lookup_updateCache (cache : BlockCache) (id : Nat) (t tpl : CBlockTemplate)
    (h : List.lookup id cache = some tpl) :
    List.lookup id (updateCache cache id t) = some t := by
  induction cache with
  | nil => simp at h
  | cons kv rest ih =>
    obtain ⟨k, v⟩ := kv
    by_cases hk : k = id
    · subst hk
      show List.lookup k ((if k = k then (k, t) else (k, v)) :: updateCache rest k t) = some t
      rw [if_pos rfl]
      exact List.lookup_cons_self
    · have hne : (id == k) = false := beq_eq_false_iff_ne.mpr (Ne.symm hk)
      rw [List.lookup_cons, hne] at h
      show List.lookup id ((if k = id then (k, t) else (k, v)) :: updateCache rest id t) = some t
      rw [if_neg hk, List.lookup_cons, hne]
      exact ih h

/-- The block handed to `ProcessNewBlock`: the cached block with the submitted
coinbase substituted as `vtx[0]`, the header fields overwritten, and the Merkle
root recomputed. -/
def submittedBlockOf (mroot : List CTransaction → Nat) (sol : Sv2SubmitSolutionMsg)
    (blk : CBlock) : CBlock :=
  let vtx := if blk.vtx.length = 0 then [sol.m_coinbase_tx]
    else sol.m_coinbase_tx :: blk.vtx.tail
  { blk with
    vtx := vtx,
    nVersion := sol.m_version,
    nTime := sol.m_header_timestamp,
    nNonce := sol.m_header_nonce,
    hashMerkleRoot := mroot vtx }

/-- What remains in the cache after the `std::move`: the same template record,
its block's scalar fields overwritten by the solution, its `vtx` emptied. -/
def guttedTemplateOf (mroot : List CTransaction → Nat) (sol : Sv2SubmitSolutionMsg)
    (tpl : CBlockTemplate) : CBlockTemplate :=
  { tpl with block := { submittedBlockOf mroot sol tpl.block with vtx := [] } }

/-- Claim C9 counterexample: for the concrete cached template `template0`
(transactions `[tx_cb, tx1]`), `RequestTransactionData` before the
`SubmitSolution` succeeds with transaction list `[tx1]` and witness reserve
value `[7, 7]`, while the same request issued after the `SubmitSolution` hits
the out-of-bounds `vtx[0]` access (`none`) — not the same answer, refuting the
claim as stated. -/
theorem claim_C9_counterexample_request_after_submit :
    handleRequestTransactionData true (some req0) psC9 =
      some { psC9 with sent := [OutMsg.requestTransactionDataSuccess 1 [7, 7] [tx1]] } ∧
    handleRequestTransactionData true (some req0)
      (handleSubmitSolution mroot0 (some sol0) psC9) = none := by
  decide

/-- Claim C9, amended: processing a `SubmitSolution` whose `template_id` is
cached keeps the entry in the cache but does not leave it intact — the block is
moved out to be submitted, leaving the cached `vtx` empty with the header
fields overwritten by the solution — and a `RequestTransactionData` for the
same `template_id` issued afterwards no longer returns the pre-existing
transaction list: for a non-null cached block it reaches the out-of-bounds
`block.vtx[0]` access. -/
theorem claim_C9_submit_solution_moves_cached_block (mroot : List CTransaction → Nat)
    (ps : ProcState) (sol : Sv2SubmitSolutionMsg) (tpl : CBlockTemplate)
    (hconf : ps.client.m_setup_connection_confirmed = true)
    (hlook : List.lookup sol.m_template_id ps.block_cache = some tpl) :
    handleSubmitSolution mroot (some sol) ps =
      { ps with
        block_cache := updateCache ps.block_cache sol.m_template_id
          (guttedTemplateOf mroot sol tpl),
        submitted := ps.submitted ++ [submittedBlockOf mroot sol tpl.block] } ∧
    List.lookup sol.m_template_id (handleSubmitSolution mroot (some sol) ps).block_cache =
      some (guttedTemplateOf mroot sol tpl) ∧
    (guttedTemplateOf mroot sol tpl).block.vtx = [] ∧
    (tpl.block.nBits ≠ 0 →
      handleRequestTransactionData true (some { m_template_id := sol.m_template_id })
        (handleSubmitSolution mroot (some sol) ps) = none) := by
  have heq : handleSubmitSolution mroot (some sol) ps =
      { ps with
        block_cache := updateCache ps.block_cache sol.m_template_id
          (guttedTemplateOf mroot sol tpl),
        submitted := ps.submitted ++ [submittedBlockOf mroot sol tpl.block] } := by
    simp [handleSubmitSolution, hconf, hlook, submittedBlockOf, guttedTemplateOf]
  have hlk2 : List.lookup sol.m_template_id
      (handleSubmitSolution mroot (some sol) ps).block_cache =
      some (guttedTemplateOf mroot sol tpl) := by
    rw [heq]
    exact lookup_updateCache _ _ _ _ hlook
  refine ⟨heq, hlk2, rfl, fun hbits => ?_⟩
  simp [handleRequestTransactionData, hlk2, coinbaseWitnessReserve, guttedTemplateOf,
    submittedBlockOf, CBlock.IsNull, hbits]

/-- Claim C9 amended-theorem witness: instantiated at the concrete cached
template `template0` and solution `sol0`. -/
theorem claim_C9_submit_solution_moves_cached_block_witness :
    psC9.client.m_setup_connection_confirmed = true ∧
    List.lookup sol0.m_template_id psC9.block_cache = some template0 ∧
    (handleSubmitSolution mroot0 (some sol0) psC9 =
      { psC9 with
        block_cache := updateCache psC9.block_cache sol0.m_template_id
          (guttedTemplateOf mroot0 sol0 template0),
        submitted := psC9.submitted ++ [submittedBlockOf mroot0 sol0 template0.block] } ∧
    List.lookup sol0.m_template_id
        (handleSubmitSolution mroot0 (some sol0) psC9).block_cache =
      some (guttedTemplateOf mroot0 sol0 template0) ∧
    (guttedTemplateOf mroot0 sol0 template0).block.vtx = [] ∧
    (template0.block.nBits ≠ 0 →
      handleRequestTransactionData true (some { m_template_id := sol0.m_template_id })
        (handleSubmitSolution mroot0 (some sol0) psC9) = none)) :=
  ⟨rfl, by decide,
   claim_C9_submit_solution_moves_cached_block mroot0 psC9 sol0 template0 rfl (by decide)⟩

end Sv2
